import Mathlib

/-!
Verification development for the VaSeBuilder repository
(src/VaSeBuilder.py, src/VariantContext.py, src/VariantContextFile.py,
src/ParamChecker.py).

The Python sources are shallowly embedded: pure methods become Lean
functions, the registry dictionary becomes an association list with
Python-dict insert/replace semantics, and Python exceptions
(IndexError, AttributeError, ZeroDivisionError, ValueError,
StopIteration) become Except.error values carrying the exception name.
pysam and gzip are external collaborators: an alignment file is a list
of records, fetch and mate are modelled on htslib semantics, and a
FASTQ file is its list of lines.

The classes DonorBamRead and OverlapContext are imported by the sources
but their files are not part of src/; their fields and accessors are
modelled from the specification (section 3 of spec.md) and each such
definition is marked in its doc comment.

Python string primitives (strip, split, comparison, stable sort) are
modelled by executable character-list functions so that every
definition evaluates inside the kernel; each is documented next to its
definition.
-/

/-- Model of Python str.strip: removes leading and trailing whitespace
characters from a string. -/
def pyStrip (s : String) : String :=
  String.mk (((s.data.dropWhile Char.isWhitespace).reverse.dropWhile
      Char.isWhitespace).reverse)

/-- Helper for pySplit: splits a character list at every occurrence of
the separator character, accumulating the current field in reverse. -/
def pySplitAux (sep : Char) : List Char → List Char → List String
  | [], acc => [String.mk acc.reverse]
  | c :: cs, acc =>
    if c = sep then String.mk acc.reverse :: pySplitAux sep cs []
    else pySplitAux sep cs (c :: acc)

/-- Model of Python str.split with a one-character separator, as used by
the sources with separators a comma and a tab: splits at every
occurrence of the separator; the result always has one more element
than the number of separator occurrences, hence is never empty. -/
def pySplit (sep : Char) (s : String) : List String := pySplitAux sep s.data []

/-- Model of Python str.join on a list of strings. -/
def pyJoin (sep : String) : List String → String
  | [] => ""
  | [x] => x
  | x :: y :: xs => x ++ sep ++ pyJoin sep (y :: xs)

/-- Code-point lexicographic comparison of character lists; total order
used to model Python string comparison (Python compares str values
lexicographically by code point). -/
def charListLe : List Char → List Char → Bool
  | [], _ => true
  | _ :: _, [] => false
  | a :: as, b :: bs => if a = b then charListLe as bs else decide (a < b)

/-- Model of Python string less-or-equal (lexicographic by code point). -/
def pyStrLe (a b : String) : Bool := charListLe a.data b.data

/-- Maximum of a list of naturals with base 0; models Python max over a
nonempty list of string lengths (for a nonempty list of naturals the
fold with base 0 equals the Python maximum). -/
def foldMax (l : List Nat) : Nat := l.foldl Nat.max 0

/-- AlignedRead record as stored by the sources.  Modelled from the
spec: class DonorBamRead is imported by src/VaSeBuilder.py but its file
is not under src/; spec section 3 gives its attributes (read id, pair
number, chromosome, reference start, inferred length, forward sequence,
Phred+33 quality string, mapping quality) and defines equality by the
full tuple. -/
structure DonorBamRead where
  id : String
  pairnum : String
  chrom : String
  refStart : Int
  readLen : Int
  seq : String
  qual : String
  mapq : Int
deriving DecidableEq, Repr

/-- Rightmost position of a read.  Modelled from the spec: DonorBamRead
is not under src/; spec section 3 gives ref-end as the exclusive end of
the read, ref-start plus the stored length. -/
def DonorBamRead.refEnd (r : DonorBamRead) : Int := r.refStart + r.readLen

/-- Whether the read is the first mate.  Modelled from the spec:
DonorBamRead is not under src/; the pair number stored by
getReadPairNum is the string 1 for a first mate. -/
def DonorBamRead.isRead1 (r : DonorBamRead) : Bool := r.pairnum == "1"

/-- Whether the read is the second mate.  Modelled from the spec. -/
def DonorBamRead.isRead2 (r : DonorBamRead) : Bool := r.pairnum == "2"

/-- Four-line FASTQ block of a read.  Modelled from the spec:
DonorBamRead is not under src/; spec section 4.4 gives the format (the
id after an at sign, the sequence, a plus line, the quality string). -/
def DonorBamRead.getAsFastQSeq (r : DonorBamRead) : String :=
  "@" ++ r.id ++ "\n" ++ r.seq ++ "\n+\n" ++ r.qual ++ "\n"

/-- A record of a BAM file as surfaced by pysam (external collaborator):
query name, first-in-pair flag, reference name, reference start, the
aligned reference end used by the fetch index, the inferred read
length, forward sequence, forward qualities already rendered as a
Phred+33 string, mapping quality, and whether the record is mapped. -/
structure SamRec where
  qname : String
  read1 : Bool
  refName : String
  refStart : Int
  refEnd : Int
  readLen : Int
  fwdSeq : String
  fwdQual : String
  mapq : Int
  mapped : Bool
deriving DecidableEq, Repr

/-- pysam AlignmentFile.fetch over a region, modelled on htslib index
semantics: returns the mapped records on the requested reference whose
aligned span intersects the half-open window. -/
def bamFetch (bam : List SamRec) (chrom : String) (s e : Int) : List SamRec :=
  bam.filter (fun r =>
    r.mapped && r.refName == chrom && decide (r.refStart < e) && decide (s < r.refEnd))

/-- pysam AlignmentFile.mate, modelled on pysam semantics: the mapped
record with the same query name and the opposite first-in-pair flag;
none models the ValueError raised when the mate is unmapped or absent. -/
def bamMate (bam : List SamRec) (r : SamRec) : Option SamRec :=
  bam.find? (fun m => m.qname == r.qname && m.read1 != r.read1 && m.mapped)

/-- VaSeBuilder.getReadPairNum (src/VaSeBuilder.py lines 333 to 336). -/
def getReadPairNum (r : SamRec) : String := if r.read1 then "1" else "2"

/-- Construction of a DonorBamRead from a pysam record as done inside
VaSeBuilder.getVariantReads (src/VaSeBuilder.py lines 181 and 186). -/
def toDonorBamRead (r : SamRec) : DonorBamRead :=
  ⟨r.qname, getReadPairNum r, r.refName, r.refStart, r.readLen, r.fwdSeq, r.fwdQual, r.mapq⟩

/-- VaSeBuilder.readOccurence (src/VaSeBuilder.py lines 204 to 205):
number of reads in the list carrying the given identifier. -/
def readOccurence (readId : String) (readList : List DonorBamRead) : Nat :=
  readList.countP (fun b => decide (b.id = readId))

/-- VaSeBuilder.filterVariantReads (src/VaSeBuilder.py lines 200 to
201): keep only reads whose identifier occurs exactly twice in the
list. -/
def filterVariantReads (bamReads : List DonorBamRead) : List DonorBamRead :=
  bamReads.filter (fun bread => decide (readOccurence bread.id bamReads = 2))

/-- VaSeBuilder.getVariantReads (src/VaSeBuilder.py lines 176 to 196):
fetch every record overlapping the window, append each found mate,
record the query name of a read whose mate lookup fails (every call
site passes writeUnm as True), deduplicate by full-tuple equality
(Python list-of-set), then keep only identifiers occurring exactly
twice.  Returns the filtered reads and the unmapped-mate id list. -/
def getVariantReads (chrom : String) (s e : Int) (bam : List SamRec) :
    List DonorBamRead × List String :=
  let step := (bamFetch bam chrom s e).foldl
    (fun (acc : List DonorBamRead × List String) vread =>
      match bamMate bam vread with
      | some vmread => (acc.1 ++ [toDonorBamRead vread, toDonorBamRead vmread], acc.2)
      | none => (acc.1 ++ [toDonorBamRead vread], acc.2 ++ [vread.qname]))
    ([], [])
  (filterVariantReads step.1.dedup, step.2)

/-- The four-element context list built by VaSeBuilder.determineContext:
chromosome, origin, start, end. -/
structure CtxBounds where
  cchrom : String
  corigin : Int
  cstart : Int
  cend : Int
deriving DecidableEq, Repr

/-- VaSeBuilder.determineContext (src/VaSeBuilder.py lines 209 to 217):
with at least one read, the chromosome of the first read, the given
origin, the minimum read start and the maximum read end; with no reads
the empty list, modelled as none. -/
def determineContext (contextReads : List DonorBamRead) (contextOrigin : Int) :
    Option CtxBounds :=
  match contextReads with
  | [] => none
  | r :: rs =>
    some ⟨r.chrom, contextOrigin,
      (rs.map (fun c => c.refStart)).foldl min r.refStart,
      (rs.map (fun c => c.refEnd)).foldl max r.refEnd⟩

/-- VaSeBuilder.determineLargestContext (src/VaSeBuilder.py lines 221
to 226) on two non-empty context lists: acceptor chromosome, the given
origin, minimum of the starts, maximum of the ends.  When either
context list is empty the Python code raises an uncaught IndexError
while indexing it; processVariant below models that path. -/
def determineLargestContext (contextOrigin : Int) (acceptorContext donorContext : CtxBounds) :
    CtxBounds :=
  ⟨acceptorContext.cchrom, contextOrigin,
    min acceptorContext.cstart donorContext.cstart,
    max acceptorContext.cend donorContext.cend⟩

/-- A VCF record as surfaced by pysam: chromosome, position, reference
allele string (possibly comma separated) and alternative alleles. -/
structure VcfVar where
  vchrom : String
  vpos : Int
  vref : String
  valts : List String
deriving DecidableEq, Repr

/-- VaSeBuilder.getVcfVariantId (src/VaSeBuilder.py lines 329 to 330):
the chromosome and position joined by an underscore, used
unconditionally. -/
def getVcfVariantId (v : VcfVar) : String := v.vchrom ++ "_" ++ toString v.vpos

/-- VaSeBuilder.determineVariantType (src/VaSeBuilder.py lines 147 to
156): snp when the longest comma-separated reference allele and the
longest alternative allele both have length 1, indel when either
exceeds 1, otherwise the question-mark string.  Python max over an
empty alts tuple raises ValueError, modelled by the error branch. -/
def determineVariantType (vcfVariantRef : String) (vcfVariantAlts : List String) :
    Except String String :=
  match vcfVariantAlts with
  | [] => .error "ValueError"
  | _ =>
    let maxRefLength := foldMax ((pySplit ',' vcfVariantRef).map String.length)
    let maxAltLength := foldMax (vcfVariantAlts.map String.length)
    if maxRefLength == 1 && maxAltLength == 1 then .ok "snp"
    else if maxRefLength > 1 || maxAltLength > 1 then .ok "indel"
    else .ok "?"

/-- VaSeBuilder.determineIndelReadRange (src/VaSeBuilder.py lines 169
to 172): the window from the position to the position plus the largest
allele length over reference and alternative alleles. -/
def determineIndelReadRange (variantPos : Int) (variantRef : String)
    (variantAlts : List String) : Int × Int :=
  (variantPos,
    variantPos + (Nat.max (foldMax ((pySplit ',' variantRef).map String.length))
      (foldMax (variantAlts.map String.length)) : Nat))

/-- VaSeBuilder.determineReadSearchWindow (src/VaSeBuilder.py lines 160
to 165): for a snp the window around the position, for an indel the
indel read range, otherwise the pair of minus ones. -/
def determineReadSearchWindow (variantType : String) (v : VcfVar) : Int × Int :=
  if variantType == "snp" then (v.vpos - 1, v.vpos + 1)
  else if variantType == "indel" then determineIndelReadRange v.vpos v.vref v.valts
  else (-1, -1)

/-- Overlap context record.  Modelled from the spec: class
OverlapContext is imported by the sources but its file is not under
src/; spec section 3 gives its attributes (context id, sample id,
chromosome, origin, start, end, member reads, unmapped-mate ids). -/
structure OverlapCtx where
  octxId : String
  osampleId : String
  ochrom : String
  oorigin : Int
  ostart : Int
  oend : Int
  oreads : List DonorBamRead
  ounmapped : List String
deriving DecidableEq, Repr

/-- Length of an overlap context.  Modelled from the spec: OverlapContext
is not under src/; the length of a context is the absolute difference
of its end and start, as VariantContext.get_variant_context_length
computes for the variant context. -/
def OverlapCtx.getContextLength (o : OverlapCtx) : Int := |o.oend - o.ostart|

/-- VariantContext record (src/VariantContext.py lines 35 to 82) after
the builder has attached the acceptor and donor overlap contexts and
the four unmapped-mate id lists. -/
structure VariantContextRec where
  contextId : String
  sampleId : String
  ctxChrom : String
  ctxOrigin : Int
  ctxStart : Int
  ctxEnd : Int
  areads : List DonorBamRead
  dreads : List DonorBamRead
  accOvl : Option OverlapCtx
  donOvl : Option OverlapCtx
  unmappedA : List String
  unmappedD : List String
deriving DecidableEq, Repr

/-- The registry VariantContextFile.variant_contexts: a Python dict
from context id to variant context, modelled as an association list in
insertion order with unique keys maintained by dictInsert. -/
abbrev Registry := List (String × VariantContextRec)

/-- Python dict item assignment as performed by
VariantContextFile.add_variant_context (src/VariantContextFile.py line
259): replace the value in place when the key is present, otherwise
append the new pair. -/
def dictInsert (k : String) (v : VariantContextRec) (d : Registry) : Registry :=
  if d.any (fun p => p.1 == k) then
    d.map (fun p => if p.1 == k then (k, v) else p)
  else d ++ [(k, v)]

/-- VariantContextFile.snp_variant_is_in_context
(src/VariantContextFile.py lines 218 to 224): some stored context on
the same chromosome whose closed interval contains the passed
position argument. -/
def snpVariantIsInContext (reg : Registry) (varchrom : String) (vcfvarpos : Int) : Bool :=
  reg.any (fun p =>
    p.2.ctxChrom == varchrom && decide (p.2.ctxStart ≤ vcfvarpos)
      && decide (vcfvarpos ≤ p.2.ctxEnd))

/-- VariantContextFile.indel_variant_is_in_context
(src/VariantContextFile.py lines 229 to 241): same chromosome and one
of the three closed-interval overlap cases. -/
def indelVariantIsInContext (reg : Registry) (indelchrom : String)
    (indelleftpos indelrightpos : Int) : Bool :=
  reg.any (fun p =>
    p.2.ctxChrom == indelchrom &&
      ((decide (indelleftpos ≤ p.2.ctxStart) && decide (indelrightpos ≥ p.2.ctxStart))
        || (decide (indelleftpos ≤ p.2.ctxEnd) && decide (indelrightpos ≥ p.2.ctxEnd))
        || (decide (indelleftpos ≥ p.2.ctxStart) && decide (indelrightpos ≤ p.2.ctxEnd))))

/-- VariantContextFile.variant_is_in_context (src/VariantContextFile.py
lines 207 to 214).  For an unknown type Python returns None which the
caller at src/VaSeBuilder.py line 64 negates to True, so false models
it faithfully for that call site. -/
def variantIsInContext (reg : Registry) (varianttype searchchrom : String)
    (searchstart searchstop : Int) : Bool :=
  if varianttype == "snp" then snpVariantIsInContext reg searchchrom searchstart
  else if varianttype == "indel" then
    indelVariantIsInContext reg searchchrom searchstart searchstop
  else false

/-- Per-variant body of VaSeBuilder.buildValidationSet
(src/VaSeBuilder.py lines 51 to 95): compute the variant id, classify
the variant, compute the search window, skip when the registry already
matches, gather the narrow-window acceptor and donor reads, derive both
contexts, combine them (raising IndexError when either context list is
empty, as the Python list indexing in determineLargestContext does),
re-fetch both read sets over the combined window, and install the
context only when both narrow read lists are non-empty; otherwise the
registry is returned unchanged.  Only IOError is caught by the
surrounding handlers, so the IndexError aborts the whole build. -/
def processVariant (sampleId : String) (acceptorBam donorBam : List SamRec)
    (reg : Registry) (v : VcfVar) : Except String Registry :=
  let variantId := getVcfVariantId v
  match determineVariantType v.vref v.valts with
  | .error err => .error err
  | .ok variantType =>
    let searchWindow := determineReadSearchWindow variantType v
    if variantIsInContext reg variantType v.vchrom searchWindow.1 searchWindow.2 then
      .ok reg
    else
      let acceptorPass := getVariantReads v.vchrom searchWindow.1 searchWindow.2 acceptorBam
      let donorPass := getVariantReads v.vchrom searchWindow.1 searchWindow.2 donorBam
      match determineContext acceptorPass.1 v.vpos, determineContext donorPass.1 v.vpos with
      | none, _ => .error "IndexError"
      | some _, none => .error "IndexError"
      | some acceptorContext, some donorContext =>
        let variantContext := determineLargestContext v.vpos acceptorContext donorContext
        let widePassA := getVariantReads variantContext.cchrom variantContext.cstart
          variantContext.cend acceptorBam
        let widePassD := getVariantReads variantContext.cchrom variantContext.cstart
          variantContext.cend donorBam
        if 0 < donorPass.1.length && 0 < acceptorPass.1.length then
          .ok (dictInsert variantId
            { contextId := variantId
              sampleId := sampleId
              ctxChrom := variantContext.cchrom
              ctxOrigin := variantContext.corigin
              ctxStart := variantContext.cstart
              ctxEnd := variantContext.cend
              areads := widePassA.1
              dreads := widePassD.1
              accOvl := some ⟨variantId, sampleId, acceptorContext.cchrom,
                acceptorContext.corigin, acceptorContext.cstart, acceptorContext.cend,
                acceptorPass.1, acceptorPass.2⟩
              donOvl := some ⟨variantId, sampleId, donorContext.cchrom,
                donorContext.corigin, donorContext.cstart, donorContext.cend,
                donorPass.1, donorPass.2⟩
              unmappedA := widePassA.2
              unmappedD := widePassD.2 } reg)
        else .ok reg

/-- The variant loop of VaSeBuilder.buildValidationSet for one sample
(src/VaSeBuilder.py line 51): process the variants in file order,
starting from the given registry, propagating the uncaught exceptions
of the body. -/
def buildRegistry (sampleId : String) (acceptorBam donorBam : List SamRec)
    (vs : List VcfVar) (reg : Registry) : Except String Registry :=
  vs.foldlM (fun r v => processVariant sampleId acceptorBam donorBam r v) reg

/-- VaSeBuilder.isRequiredRead (src/VaSeBuilder.py lines 285 to 288):
first mates for the forward orientation, second mates otherwise. -/
def isRequiredRead (bamRead : DonorBamRead) (fR : String) : Bool :=
  if fR == "F" then bamRead.isRead1 else bamRead.isRead2

/-- Header identifier extraction of src/VaSeBuilder.py line 259: the
line is stripped and its first character (the at sign) dropped. -/
def headerId (fileLine : String) : String := String.mk ((pyStrip fileLine).data.drop 1)

/-- Acceptor streaming loop of VaSeBuilder.writeVaSeFastQ
(src/VaSeBuilder.py lines 255 to 263) over the lines of one template
FASTQ: a line starting with an at sign whose stripped identifier is not
in the skip list is written together with the next three lines (the
iterator advances past them); a header in the skip list writes nothing
and does not advance the iterator, so the following lines are examined
one by one; any other line is ignored.  The error value models the
StopIteration escaping from next when fewer than three lines remain. -/
def vaseFilterLines (acceptorReadsToSkip : List String) :
    List String → Except String (List String)
  | [] => .ok []
  | fileLine :: rest =>
    if "@".data.isPrefixOf fileLine.data then
      if headerId fileLine ∈ acceptorReadsToSkip then
        vaseFilterLines acceptorReadsToSkip rest
      else
        match rest with
        | l1 :: l2 :: l3 :: rest2 =>
          (vaseFilterLines acceptorReadsToSkip rest2).map
            (fun out => fileLine :: l1 :: l2 :: l3 :: out)
        | _ => .error "StopIteration"
    else vaseFilterLines acceptorReadsToSkip rest

/-- Ascending order on read ids used by the donor sort. -/
def donorReadLe (a b : DonorBamRead) : Prop := pyStrLe a.id b.id = true

instance : DecidableRel donorReadLe := fun a b => instDecidableEqBool (pyStrLe a.id b.id) true

/-- Ascending order on strings used when sorting read-id columns. -/
def strLe (a b : String) : Prop := pyStrLe a b = true

instance : DecidableRel strLe := fun a b => instDecidableEqBool (pyStrLe a b) true

/-- Python list.sort with key the read id (src/VaSeBuilder.py line
268): a stable ascending sort; a stable sort is extensionally unique,
so insertion sort by the same key models it. -/
def sortDonorReads (donorReads : List DonorBamRead) : List DonorBamRead :=
  donorReads.insertionSort donorReadLe

/-- Donor reads emitted at the end of the last lane by
VaSeBuilder.writeVaSeFastQ (src/VaSeBuilder.py lines 267 to 272): the
id-sorted donor reads restricted to the mates required by the
orientation. -/
def emittedDonorReads (donorReads : List DonorBamRead) (fR : String) :
    List DonorBamRead :=
  (sortDonorReads donorReads).filter (fun bamRead => isRequiredRead bamRead fR)

/-- VaSeBuilder.writeVaSeFastQ (src/VaSeBuilder.py lines 248 to 281):
stream the template lines through the skip filter, then, when donor
writing is enabled, append the FASTQ block of every emitted donor
read. -/
def writeVaSeFastQ (acceptorFastqIn : List String) (acceptorReadsToSkip : List String)
    (donorBamReadData : List DonorBamRead) (fR : String) (writeDonorData : Bool) :
    Except String (List String) :=
  (vaseFilterLines acceptorReadsToSkip acceptorFastqIn).map (fun acc =>
    if writeDonorData then
      acc ++ (emittedDonorReads donorBamReadData fR).map
        (fun bamRead => bamRead.getAsFastQSeq)
    else acc)

/-- VaSeBuilder.buildFastQ (src/VaSeBuilder.py lines 232 to 244): one
output per lane; the writeDonor flag becomes true exactly at the last
index (it latches, but the loop ends there). -/
def buildFastQ (acceptorFqFilePaths : List (List String))
    (acceptorReadsToSkip : List String) (donorContextReadMap : List DonorBamRead)
    (forwardOrReverse : String) : List (Except String (List String)) :=
  (List.range acceptorFqFilePaths.length).map (fun x =>
    writeVaSeFastQ (acceptorFqFilePaths.getD x []) acceptorReadsToSkip
      donorContextReadMap forwardOrReverse
      (decide (x = acceptorFqFilePaths.length - 1)))

/-- Record-level omission as the specification words it (spec section
4.4): stream records as four consecutive lines per record and omit a
record exactly when its identifier, the header line with the leading at
sign removed and trailing whitespace trimmed, is in the skip set.
Stated from the spec, to be compared with vaseFilterLines. -/
def specOmitRecords (skip : List String) : List String → List String
  | h :: l1 :: l2 :: l3 :: rest =>
    if headerId h ∈ skip then specOmitRecords skip rest
    else h :: l1 :: l2 :: l3 :: specOmitRecords skip rest
  | l => l

/-- VariantContextFile.passes_filter (src/VariantContextFile.py lines
148 to 151): membership when a filter list is supplied, pass-through
when the filter is None. -/
def passesFilter (valtocheck : String) (filterlist : Option (List String)) : Bool :=
  match filterlist with
  | some l => valtocheck ∈ l
  | none => true

/-- Textual rendering of the acceptor-donor ratio column of
VariantContext.to_string.  Python prints the str of the float quotient;
no claim examines this column, so the exact pair is rendered instead of
a floating-point decimal (floating-point formatting is outside the
embedding). -/
def ratioRepr (acount dcount : Nat) : String := toString acount ++ "/" ++ toString dcount

/-- Read-id column of VariantContext.to_string (src/VariantContext.py
lines 1071 to 1078): the deduplicated read ids (get_acceptor_read_ids
already deduplicates, to_string deduplicates again), sorted ascending,
joined by semicolons. -/
def joinReadIds (reads : List DonorBamRead) : String :=
  pyJoin ";" (((reads.map (fun x => x.id)).dedup).dedup.insertionSort strLe)

/-- VariantContext.to_string (src/VariantContext.py lines 1052 to 1091)
for a context whose acceptor read list is present (the builder always
stores lists): tab-joined row of the thirteen columns.  Python raises
ZeroDivisionError when the donor read list is empty and AttributeError
when an overlap context is absent (None has no get_context_length);
both are modelled as errors. -/
def VariantContextRec.toStringRow (c : VariantContextRec) : Except String String :=
  if c.dreads.length = 0 then .error "ZeroDivisionError"
  else
    match c.accOvl with
    | none => .error "AttributeError"
    | some ao =>
      match c.donOvl with
      | none => .error "AttributeError"
      | some dko =>
        .ok (c.contextId ++ "\t" ++ c.sampleId ++ "\t" ++ c.ctxChrom ++ "\t"
          ++ toString c.ctxOrigin ++ "\t" ++ toString c.ctxStart ++ "\t"
          ++ toString c.ctxEnd ++ "\t" ++ toString ao.getContextLength ++ "\t"
          ++ toString dko.getContextLength ++ "\t" ++ toString c.areads.length ++ "\t"
          ++ toString c.dreads.length ++ "\t" ++ ratioRepr c.areads.length c.dreads.length
          ++ "\t" ++ joinReadIds c.areads ++ "\t" ++ joinReadIds c.dreads)

/-- Header line written by
VariantContextFile.write_variant_context_file
(src/VariantContextFile.py lines 379 to 383). -/
def varconHeader : String :=
  "#ContextId\tDonorSample\tChrom\tOrigin\tStart\tEnd\tAcceptorContextLength\tDonorContextLength\tAcceptorReads\tDonorReads\tADratio\tAcceptorReadsIds\tDonorReadIds"

/-- VariantContextFile.write_variant_context_file
(src/VariantContextFile.py lines 374 to 401): the header line followed
by one to_string row per stored context passing all three optional
filters; a row-level exception aborts the write (only IOError is
caught there). -/
def writeVariantContextFile (reg : Registry) (samplefilter varconfilter chromfilter :
    Option (List String)) : Except String (List String) := do
  let passing := reg.filter (fun p =>
    passesFilter p.2.sampleId samplefilter && passesFilter p.2.contextId varconfilter
      && passesFilter p.2.ctxChrom chromfilter)
  let rows ← passing.mapM (fun p => p.2.toStringRow)
  .ok (varconHeader :: rows)

/-- Line loop of VariantContextFile.read_variant_context_file
(src/VariantContextFile.py lines 96 to 142): each line is stripped and
split on tabs; fields one, zero and two are read for the three filters
(IndexError when fewer than three fields); when every filter passes the
body dereferences self.variantContextFileType, an attribute never
assigned anywhere in the class, so Python raises AttributeError before
constructing anything; when some filter rejects, the line is skipped
and the registry stays as initialised. -/
def readVarconLoop (samplefilter varconfilter chromfilter : Option (List String)) :
    List String → Except String Registry
  | [] => .ok []
  | fileline :: rest =>
    let filelinedata := pySplit '\t' (pyStrip fileline)
    match filelinedata.get? 1, filelinedata.get? 0, filelinedata.get? 2 with
    | some f1, some f0, some f2 =>
      if passesFilter f1 samplefilter && passesFilter f0 varconfilter
          && passesFilter f2 chromfilter then
        .error "AttributeError"
      else readVarconLoop samplefilter varconfilter chromfilter rest
    | _, _, _ => .error "IndexError"

/-- VariantContextFile.read_variant_context_file
(src/VariantContextFile.py lines 91 to 145): skip the header line (next
on an empty file raises StopIteration) and run the line loop. -/
def readVariantContextFile (lines : List String)
    (samplefilter varconfilter chromfilter : Option (List String)) :
    Except String Registry :=
  match lines with
  | [] => .error "StopIteration"
  | _header :: rest => readVarconLoop samplefilter varconfilter chromfilter rest

/-- Largest allele length as the specification words it (spec section
4.2 step 2): the maximum length over all reference and alternative
alleles together.  Stated from the spec, to be compared with
determineIndelReadRange. -/
def maxAlleleLength (v : VcfVar) : Nat :=
  foldMax ((pySplit ',' v.vref).map String.length ++ v.valts.map String.length)

/-- Outcome of the try body for one variant inside
VaSeBuilder.buildValidationSet (src/VaSeBuilder.py lines 65 to 98):
either the body completes or a pysam call raises an IOError that the
handler at line 97 catches. -/
inductive VarStep where
  | okStep
  | ioErrorStep
deriving DecidableEq, Repr

/-- One donor sample as seen by the orchestration loop of
buildValidationSet: the sample id, the path of its alignment file
(bamSampleMap value), whether opening its VCF and BAM succeeds, and the
per-variant outcomes. -/
structure DonorSample where
  sid : String
  bamPath : String
  openOk : Bool
  steps : List VarStep
deriving DecidableEq, Repr

/-- Warnings and the critical message emitted by
VaSeBuilder.buildValidationSet, with the datum each message string
interpolates: line 107 interpolates the sample id, line 98
interpolates the bam file path of the sample, line 142 is the fatal
acceptor message. -/
inductive LogEvent where
  | warnNoData (sid : String)
  | warnNoReads (bamPath : String)
  | criticalAcceptorBam
deriving DecidableEq, Repr

/-- Log events produced while processing one donor sample
(src/VaSeBuilder.py lines 44 to 107): an open failure yields the
could-not-establish-data warning carrying the sample id and ends the
sample; otherwise each variant whose body raises IOError yields the
could-not-obtain-reads warning carrying the bam path and the loop
continues with the next variant. -/
def processSampleEvents (s : DonorSample) : List LogEvent :=
  if s.openOk then
    s.steps.filterMap (fun st =>
      match st with
      | VarStep.ioErrorStep => some (LogEvent.warnNoReads s.bamPath)
      | VarStep.okStep => none)
  else [LogEvent.warnNoData s.sid]

/-- Body of the sample loop of VaSeBuilder.buildValidationSet
(src/VaSeBuilder.py lines 40 to 107): a sample whose files fail to
open logs the sample-id warning and is not appended to the used-donor
list; an opened sample contributes its per-variant events and is
appended to the used-donor list (lines 104 to 105) even when some of
its variants raised an IOError. -/
def sampleLoopStep (acc : List LogEvent × List String) (s : DonorSample) :
    List LogEvent × List String :=
  if s.openOk then
    (acc.1 ++ processSampleEvents s, acc.2 ++ [s.bamPath])
  else (acc.1 ++ [LogEvent.warnNoData s.sid], acc.2)

/-- Control-flow skeleton of VaSeBuilder.buildValidationSet
(src/VaSeBuilder.py lines 36 to 143): when the acceptor alignment
cannot be opened the outer handler logs the critical message and calls
exit (modelled by the third component); otherwise every sample is
visited in order through sampleLoopStep.  Returns the log, the used
donor bam paths, and whether the process exited. -/
def buildValidationSetRun (acceptorOpenOk : Bool) (samples : List DonorSample) :
    List LogEvent × List String × Bool :=
  if acceptorOpenOk then
    let looped := samples.foldl sampleLoopStep ([], [])
    (looped.1, looped.2, false)
  else ([LogEvent.criticalAcceptorBam], [], true)

/-- Example SNP variant record at chromosome chr1 position 100. -/
def exVariant : VcfVar := ⟨"chr1", 100, "A", ["T"]⟩

/-- Example acceptor alignment: one mapped pair named r1 spanning the
example variant. -/
def exAcceptorBam : List SamRec :=
  [⟨"r1", true, "chr1", 95, 105, 10, "AAAAAAAAAA", "IIIIIIIIII", 60, true⟩,
   ⟨"r1", false, "chr1", 102, 112, 10, "CCCCCCCCCC", "IIIIIIIIII", 60, true⟩]

/-- Example donor alignment: one mapped pair named d1 spanning the
example variant. -/
def exDonorBam : List SamRec :=
  [⟨"d1", true, "chr1", 96, 106, 10, "GGGGGGGGGG", "IIIIIIIIII", 60, true⟩,
   ⟨"d1", false, "chr1", 100, 110, 10, "TTTTTTTTTT", "IIIIIIIIII", 60, true⟩]

/-- Example registry holding one context on chr1 covering the closed
interval from 10 to 20 (origin 15). -/
def exRegistry : Registry :=
  [("chr1_15",
    { contextId := "chr1_15", sampleId := "sampleA", ctxChrom := "chr1",
      ctxOrigin := 15, ctxStart := 10, ctxEnd := 20, areads := [], dreads := [],
      accOvl := none, donOvl := none, unmappedA := [], unmappedD := [] })]

/-- Example template FASTQ lane: a record for readA whose quality line
begins with an at sign, followed by a record for readB. -/
def exLane : List String :=
  ["@readA", "ACGTACGT", "+", "@HHIIIII", "@readB", "TTTTGGGG", "+", "JJJJJJJJ"]

/-- Example donor read pair used by the FASTQ building witnesses. -/
def exDonorReads : List DonorBamRead :=
  [⟨"d2", "2", "chr1", 0, 4, "ACGT", "IIII", 60⟩,
   ⟨"d2", "1", "chr1", 0, 4, "TTTT", "IIII", 60⟩,
   ⟨"d1", "1", "chr1", 0, 4, "GGGG", "IIII", 60⟩]

/-- Example fully populated variant context, as the builder stores it:
one acceptor read, one donor read, both overlap contexts present. -/
def exContext : VariantContextRec :=
  { contextId := "chr1_100", sampleId := "sampleA", ctxChrom := "chr1",
    ctxOrigin := 100, ctxStart := 95, ctxEnd := 112,
    areads := [⟨"r1", "1", "chr1", 95, 10, "AAAAAAAAAA", "IIIIIIIIII", 60⟩],
    dreads := [⟨"d1", "1", "chr1", 96, 10, "GGGGGGGGGG", "IIIIIIIIII", 60⟩],
    accOvl := some ⟨"chr1_100", "sampleA", "chr1", 100, 95, 112, [], []⟩,
    donOvl := some ⟨"chr1_100", "sampleA", "chr1", 100, 96, 110, [], []⟩,
    unmappedA := [], unmappedD := [] }

/-- Example registry with the single fully populated context. -/
def exWriteRegistry : Registry := [("chr1_100", exContext)]

/-- Example donor sample whose files open but whose first variant
raises an IOError during a read fetch. -/
def exSample : DonorSample := ⟨"sample0", "bam0.bam", true, [VarStep.ioErrorStep, VarStep.okStep]⟩

/-- Registry produced by running the builder on the example variant
with the example acceptor and donor alignments. -/
def exBuiltRegistry : Registry :=
  (buildRegistry "sampleA" exAcceptorBam exDonorBam [exVariant] []).toOption.getD []

/-- A Python single-character split never yields an empty list: there
is always at least the final accumulated field. -/
theorem pySplitAux_ne_nil (sep : Char) : ∀ (cs acc : List Char), pySplitAux sep cs acc ≠ []
  | [], _ => by simp [pySplitAux]
  | c :: cs, acc => by
    by_cases h : c = sep
    · simp [pySplitAux, h]
    · simp only [pySplitAux, if_neg h]
      exact pySplitAux_ne_nil sep cs _

/-- pySplit never returns the empty list. -/
theorem pySplit_ne_nil (sep : Char) (s : String) : pySplit sep s ≠ [] :=
  pySplitAux_ne_nil sep s.data []

theorem foldl_max_shift : ∀ (l : List Nat) (x y : Nat),
    l.foldl Nat.max (Nat.max x y) = Nat.max x (l.foldl Nat.max y)
  | [], x, y => rfl
  | a :: l, x, y => by
    simp only [List.foldl_cons, Nat.max_assoc]
    exact foldl_max_shift l x (Nat.max y a)

theorem foldMax_cons (a : Nat) (l : List Nat) : foldMax (a :: l) = Nat.max a (foldMax l) := by
  simp only [foldMax, List.foldl_cons, Nat.zero_max]
  have h := foldl_max_shift l a 0
  simpa using h

theorem le_foldMax {x : Nat} : ∀ {l : List Nat}, x ∈ l → x ≤ foldMax l := by
  intro l hl
  induction l with
  | nil => cases hl
  | cons a t ih =>
    rw [foldMax_cons]
    rcases List.mem_cons.mp hl with h | h
    · exact h ▸ Nat.le_max_left _ _
    · exact Nat.le_trans (ih h) (Nat.le_max_right _ _)

theorem foldMax_le {n : Nat} : ∀ {l : List Nat}, (∀ x ∈ l, x ≤ n) → foldMax l ≤ n := by
  intro l hl
  induction l with
  | nil => exact Nat.zero_le n
  | cons a t ih =>
    rw [foldMax_cons]
    exact Nat.max_le.mpr ⟨hl a (List.mem_cons_self a t), ih (fun x hx => hl x (List.mem_cons_of_mem a hx))⟩

theorem foldMax_eq_zero_or_mem : ∀ (l : List Nat), foldMax l = 0 ∨ foldMax l ∈ l := by
  intro l
  induction l with
  | nil => left; rfl
  | cons a t ih =>
    rw [foldMax_cons]
    rcases Nat.le_total a (foldMax t) with h | h
    · have hmax : a.max (foldMax t) = foldMax t := Nat.max_eq_right h
      rw [hmax]
      rcases ih with h0 | hm
      · left; exact h0
      · right; exact List.mem_cons_of_mem a hm
    · have hmax : a.max (foldMax t) = a := Nat.max_eq_left h
      rw [hmax]
      right; exact List.mem_cons_self a t

theorem foldMax_append : ∀ (l₁ l₂ : List Nat),
    foldMax (l₁ ++ l₂) = Nat.max (foldMax l₁) (foldMax l₂) := by
  intro l₁ l₂
  induction l₁ with
  | nil => simp [foldMax]
  | cons a t ih => simp [foldMax_cons, ih, Nat.max_assoc]

/-- Claim C1 (code bug witness evaluation).  Processing a variant whose
acceptor alignment yields no reads does not leave the registry
unchanged: determineContext returns the empty list, and
determineLargestContext immediately indexes it, so the Python code
raises an uncaught IndexError (only IOError is caught by the
surrounding handlers) before the emptiness check at
src/VaSeBuilder.py line 84 is ever reached.  Here the acceptor
alignment is empty and the donor alignment holds a full pair. -/
theorem c1_no_reads_raises_index_error :
    processVariant "sampleA" [] exDonorBam [] exVariant = Except.error "IndexError" := rfl

/-- Claim C2 (code bug witness evaluation).  The record for readA is in
the skip set and its quality line begins with an at sign; since the
omitting branch of writeVaSeFastQ does not advance the line iterator
over the skipped record body, the quality line is treated as a header
and written together with the following three lines.  The spec-side
record filter yields the readB record intact; the code emits a
corrupted stream instead. -/
theorem c2_quality_line_corruption :
    vaseFilterLines ["readA"] exLane = Except.ok ["@HHIIIII", "@readB", "TTTTGGGG", "+"] ∧
    specOmitRecords ["readA"] exLane = ["@readB", "TTTTGGGG", "+", "JJJJJJJJ"] ∧
    (["@HHIIIII", "@readB", "TTTTGGGG", "+"] : List String) ≠
      ["@readB", "TTTTGGGG", "+", "JJJJJJJJ"] :=
  ⟨rfl, rfl, by decide⟩

/-- Claim C3 counterexample.  The registry holds a context on chr1 with
the closed interval 10 to 20; for the SNP at position 10 the claim
predicts a skip (10 lies inside the interval), but the builder passes
the left edge of the search window, position minus one, to
snp_variant_is_in_context, and 9 is outside, so the variant is not
skipped. -/
theorem c3_counterexample :
    ¬ ((variantIsInContext exRegistry "snp" "chr1" (10 - 1) (10 + 1) = true) ↔
      ∃ p ∈ exRegistry, p.2.ctxChrom = "chr1" ∧ p.2.ctxStart ≤ 10 ∧ 10 ≤ p.2.ctxEnd) := by
  decide

/-- Claim C3 amended.  A SNP variant is skipped if and only if the
registry holds a context on the same chromosome whose closed interval
contains the variant position minus one (the left edge of the SNP
search window), because variant_is_in_context forwards searchstart
rather than the variant position. -/
theorem c3_amended_snp_skip_iff (reg : Registry) (chrom : String) (pos : Int) :
    variantIsInContext reg "snp" chrom (pos - 1) (pos + 1) = true ↔
      ∃ p ∈ reg, p.2.ctxChrom = chrom ∧ p.2.ctxStart ≤ pos - 1 ∧ pos - 1 ≤ p.2.ctxEnd := by
  simp [variantIsInContext, snpVariantIsInContext, List.any_eq_true, Bool.and_eq_true,
    beq_iff_eq, decide_eq_true_eq, and_assoc]

/-- Claim C4 (code bug witness evaluation).  Serializing the example
registry succeeds, but re-loading the produced lines with no filters
raises AttributeError on the first data row:
read_variant_context_file dereferences self.variantContextFileType,
an attribute no method of VariantContextFile ever assigns, so the
round trip can never reconstruct any context. -/
theorem c4_roundtrip_raises_attribute_error :
    (writeVariantContextFile exWriteRegistry none none none).bind
      (fun lines => readVariantContextFile lines none none none) =
      Except.error "AttributeError" := rfl

theorem sampleLoop_foldl : ∀ (samples : List DonorSample) (acc : List LogEvent × List String),
    samples.foldl sampleLoopStep acc =
      (acc.1 ++ samples.flatMap processSampleEvents,
       acc.2 ++ (samples.filter (fun s => s.openOk)).map (fun s => s.bamPath)) := by
  intro samples
  induction samples with
  | nil => intro acc; simp
  | cons s ss ih =>
    intro acc
    rw [List.foldl_cons, ih]
    by_cases hs : s.openOk
    · simp [sampleLoopStep, hs, List.filter_cons, List.append_assoc]
    · simp [sampleLoopStep, processSampleEvents, hs, List.filter_cons, List.append_assoc]

/-- Claim C9 counterexample.  The example sample opens fine but its
first read fetch raises an IOError.  The claim says such a
sample-local failure logs a warning with the sample id and skips the
sample; instead the handler at src/VaSeBuilder.py line 97 logs a
warning carrying the bam file path, no emitted event carries the
sample id, and the sample is still appended to the used-donor list, so
it is not skipped. -/
theorem c9_counterexample :
    buildValidationSetRun true [exSample] =
      ([LogEvent.warnNoReads "bam0.bam"], ["bam0.bam"], false) ∧
    "bam0.bam" ∈ (buildValidationSetRun true [exSample]).2.1 ∧
    LogEvent.warnNoData "sample0" ∉ (buildValidationSetRun true [exSample]).1 :=
  ⟨rfl, by decide, by decide⟩

/-- Claim C9 amended.  An unopenable acceptor alignment is fatal: the
run logs only the critical message and exits with nothing used.
Otherwise the run never exits and visits every sample: a sample whose
files cannot be opened gets the warning carrying its sample id and is
left out of the used-donor list (it is skipped); a read fetch that
raises an IOError gets a warning carrying that sample's alignment file
path, only that variant is dropped, and the sample still reaches the
used-donor list. -/
theorem c9_amended_error_handling (acceptorOpenOk : Bool) (samples : List DonorSample) :
    (acceptorOpenOk = false →
      buildValidationSetRun acceptorOpenOk samples = ([LogEvent.criticalAcceptorBam], [], true)) ∧
    (acceptorOpenOk = true →
      buildValidationSetRun acceptorOpenOk samples =
        (samples.flatMap processSampleEvents,
         (samples.filter (fun s => s.openOk)).map (fun s => s.bamPath), false)) := by
  constructor
  · intro h; subst h; rfl
  · intro h; subst h
    simp [buildValidationSetRun, sampleLoop_foldl]

/-- Witness for the amended C9 statement at concrete inputs. -/
theorem c9_witness :
    buildValidationSetRun false [exSample] = ([LogEvent.criticalAcceptorBam], [], true) ∧
    buildValidationSetRun true [exSample] =
      ([exSample].flatMap processSampleEvents,
       ([exSample].filter (fun s => s.openOk)).map (fun s => s.bamPath), false) :=
  ⟨(c9_amended_error_handling false [exSample]).1 rfl,
   (c9_amended_error_handling true [exSample]).2 rfl⟩

theorem list_three_of_lt : ∀ (fld : List String), 2 < fld.length →
    ∃ a b c t, fld = a :: b :: c :: t
  | [], h => absurd h (by simp)
  | [_], h => absurd h (by simp)
  | [_, _], h => absurd h (by simp)
  | a :: b :: c :: t, _ => ⟨a, b, c, t, rfl⟩

theorem readVarconLoop_empty_sample_filter :
    ∀ (lines : List String), (∀ l ∈ lines, 2 < (pySplit '\t' (pyStrip l)).length) →
    readVarconLoop (some []) none none lines = Except.ok [] := by
  intro lines
  induction lines with
  | nil => intro _; rfl
  | cons l rest ih =>
    intro h
    obtain ⟨a, b, c, t, heq⟩ := list_three_of_lt _ (h l (List.mem_cons_self l rest))
    have hrest := ih (fun x hx => h x (List.mem_cons_of_mem l hx))
    simp only [readVarconLoop, heq, List.get?, passesFilter]
    simp only [List.not_mem_nil, decide_False, Bool.false_and, Bool.and_false, if_neg
      (Bool.false_ne_true)]
    exact hrest

/-- Claim C10.  passes_filter passes every value when the filter is
None and rejects every value when the supplied allow-list is empty;
consequently writing with an empty sample allow-list emits only the
header line, and loading a well-formed variant context file (each data
line carrying at least three tab-separated fields, as every written
row does) with an empty sample allow-list loads zero records. -/
theorem c10_empty_and_none_filters (v : String) (reg : Registry) (lines : List String)
    (hwf : ∀ l ∈ lines, 2 < (pySplit '\t' (pyStrip l)).length) :
    passesFilter v none = true ∧
    passesFilter v (some []) = false ∧
    writeVariantContextFile reg (some []) none none = Except.ok [varconHeader] ∧
    readVariantContextFile (varconHeader :: lines) (some []) none none = Except.ok [] := by
  refine ⟨rfl, by simp [passesFilter], ?_, ?_⟩
  · have hfilter : reg.filter (fun p =>
        passesFilter p.2.sampleId (some []) && passesFilter p.2.contextId none
          && passesFilter p.2.ctxChrom none) = [] := by
      simp [passesFilter]
    simp only [writeVariantContextFile, hfilter]
    rfl
  · exact readVarconLoop_empty_sample_filter lines hwf

/-- Witness for C10 at concrete inputs. -/
theorem c10_witness :
    passesFilter "x" none = true ∧
    passesFilter "x" (some []) = false ∧
    writeVariantContextFile exWriteRegistry (some []) none none = Except.ok [varconHeader] ∧
    readVariantContextFile [varconHeader, "a\tb\tc"] (some []) none none = Except.ok [] :=
  c10_empty_and_none_filters "x" exWriteRegistry ["a\tb\tc"] (by decide)

theorem filterVariantReads_count (l : List DonorBamRead) (r : DonorBamRead)
    (hr : r ∈ filterVariantReads l) : readOccurence r.id (filterVariantReads l) = 2 := by
  have h2 : readOccurence r.id l = 2 :=
    of_decide_eq_true (List.mem_filter.mp hr).2
  calc readOccurence r.id (filterVariantReads l)
      = List.countP (fun b => decide (b.id = r.id) &&
          decide (readOccurence b.id l = 2)) l := by
        simp only [readOccurence, filterVariantReads, List.countP_filter]
    _ = List.countP (fun b => decide (b.id = r.id)) l := by
        refine List.countP_congr ?_
        intro a _
        constructor
        · intro ha
          rw [Bool.and_eq_true] at ha
          exact ha.1
        · intro ha
          have haid : a.id = r.id := of_decide_eq_true ha
          have hao : readOccurence a.id l = 2 := by rw [haid]; exact h2
          simp [ha, hao]
    _ = 2 := h2

/-- Claim C5.  Every read collection returned by getVariantReads is
deduplicated by full-tuple equality (its elements are pairwise
distinct), and every read identifier occurring in it occurs exactly
twice: the exactly-twice filter counts identifiers over the
deduplicated accumulated list, and both carriers of a surviving
identifier survive together. -/
theorem c5_read_retrieval_pairs (bam : List SamRec) (chrom : String) (s e : Int) :
    (getVariantReads chrom s e bam).1.Nodup ∧
    ∀ r ∈ (getVariantReads chrom s e bam).1,
      readOccurence r.id (getVariantReads chrom s e bam).1 = 2 := by
  constructor
  · exact (List.nodup_dedup _).filter _
  · intro r hr
    exact filterVariantReads_count _ r hr

/-- Witness for C5: with the example acceptor alignment the returned
collection holds the r1 pair, the identifier r1 occurs exactly twice,
and the collection is duplicate free. -/
theorem c5_witness :
    readOccurence "r1" (getVariantReads "chr1" 99 101 exAcceptorBam).1 = 2 ∧
    (getVariantReads "chr1" 99 101 exAcceptorBam).1.Nodup := by
  have h := c5_read_retrieval_pairs exAcceptorBam "chr1" 99 101
  refine ⟨?_, h.1⟩
  have hm : (⟨"r1", "1", "chr1", 95, 10, "AAAAAAAAAA", "IIIIIIIIII", 60⟩ : DonorBamRead) ∈
      (getVariantReads "chr1" 99 101 exAcceptorBam).1 := by decide
  exact h.2 _ hm

theorem charListLe_total : ∀ (x y : List Char),
    charListLe x y = true ∨ charListLe y x = true
  | [], _ => Or.inl rfl
  | _ :: _, [] => Or.inr rfl
  | a :: as, b :: bs => by
    by_cases hab : a = b
    · subst hab
      simp only [charListLe, if_pos rfl]
      exact charListLe_total as bs
    · rcases lt_or_gt_of_ne hab with h | h
      · left
        simp [charListLe, hab, h]
      · right
        have hba : ¬ b = a := fun he => hab he.symm
        simp [charListLe, hba, h]

theorem charListLe_trans : ∀ (x y z : List Char),
    charListLe x y = true → charListLe y z = true → charListLe x z = true
  | [], _, _ => fun _ _ => rfl
  | _ :: _, [], _ => fun h _ => by simp [charListLe] at h
  | _ :: _, _ :: _, [] => fun _ h => by simp [charListLe] at h
  | a :: as, b :: bs, c :: cs => fun h1 h2 => by
    by_cases hab : a = b
    · subst hab
      by_cases hbc : a = c
      · subst hbc
        simp only [charListLe, if_pos rfl] at h1 h2 ⊢
        exact charListLe_trans as bs cs h1 h2
      · simp only [charListLe, if_pos rfl] at h1
        simp only [charListLe, if_neg hbc] at h2 ⊢
        exact h2
    · by_cases hbc : b = c
      · subst hbc
        simp only [charListLe, if_neg hab] at h1 ⊢
        exact h1
      · have hltab : a < b := by
          simp only [charListLe, if_neg hab, decide_eq_true_eq] at h1
          exact h1
        have hltbc : b < c := by
          simp only [charListLe, if_neg hbc, decide_eq_true_eq] at h2
          exact h2
        have hac : a < c := lt_trans hltab hltbc
        have hnac : ¬ a = c := ne_of_lt hac
        simp [charListLe, hnac, hac]

theorem donorReadLe_trans : ∀ (a b c : DonorBamRead),
    donorReadLe a b → donorReadLe b c → donorReadLe a c := fun _ _ _ h1 h2 =>
  charListLe_trans _ _ _ h1 h2

theorem donorReadLe_total : ∀ (a b : DonorBamRead), donorReadLe a b ∨ donorReadLe b a :=
  fun a b => charListLe_total a.id.data b.id.data

/-- Claim C6.  Donor reads are appended only at the last lane of each
orientation: every earlier lane output is exactly the filtered
acceptor stream, while the last lane output appends the emitted donor
block.  The emitted block is the id-sorted donor list restricted to
first mates for the forward orientation and second mates for the
reverse orientation, so all its members share one pair number (the two
mates of a pair are never emitted into the same file), and its read
identifiers are pairwise ascending in code-point lexicographic
order. -/
theorem c6_donor_append (donorReads : List DonorBamRead)
    (lanes : List (List String)) (skip : List String) (fR : String) :
    (∀ r ∈ emittedDonorReads donorReads "F", r.pairnum = "1") ∧
    (∀ r ∈ emittedDonorReads donorReads "R", r.pairnum = "2") ∧
    (emittedDonorReads donorReads fR).Pairwise donorReadLe ∧
    (∀ i, i + 1 < lanes.length →
      (buildFastQ lanes skip donorReads fR)[i]? =
        some (vaseFilterLines skip (lanes.getD i []))) ∧
    (lanes ≠ [] →
      (buildFastQ lanes skip donorReads fR)[lanes.length - 1]? =
        some ((vaseFilterLines skip (lanes.getD (lanes.length - 1) [])).map
          (fun acc => acc ++ (emittedDonorReads donorReads fR).map
            (fun bamRead => bamRead.getAsFastQSeq)))) := by
  refine ⟨?_, ?_, ?_, ?_, ?_⟩
  · intro r hr
    have := (List.mem_filter.mp hr).2
    simp only [isRequiredRead, if_pos rfl, DonorBamRead.isRead1] at this
    exact eq_of_beq this
  · intro r hr
    have := (List.mem_filter.mp hr).2
    simp only [isRequiredRead] at this
    rw [if_neg (by decide : ¬ (("R" == "F") = true))] at this
    simp only [DonorBamRead.isRead2] at this
    exact eq_of_beq this
  · haveI : IsTrans DonorBamRead donorReadLe := ⟨donorReadLe_trans⟩
    haveI : IsTotal DonorBamRead donorReadLe := ⟨donorReadLe_total⟩
    have hs : (sortDonorReads donorReads).Pairwise donorReadLe :=
      List.sorted_insertionSort donorReadLe donorReads
    exact List.Pairwise.sublist (List.filter_sublist _) hs
  · intro i hi
    have hilt : i < lanes.length := Nat.lt_of_succ_lt hi
    have hne : ¬ (i = lanes.length - 1) := by omega
    simp only [buildFastQ, List.getElem?_map, List.getElem?_range hilt, Option.map_some',
      decide_eq_false hne]
    cases hv : vaseFilterLines skip (lanes.getD i []) with
    | error e => simp_all [writeVaSeFastQ, Except.map]
    | ok out => simp_all [writeVaSeFastQ, Except.map]
  · intro hne
    have hlt : lanes.length - 1 < lanes.length := by
      cases lanes with
      | nil => exact absurd rfl hne
      | cons a t => simp
    have hdec : decide (lanes.length - 1 = lanes.length - 1) = true := by simp
    simp only [buildFastQ, List.getElem?_map, List.getElem?_range hlt, Option.map_some', hdec]
    cases hv : vaseFilterLines skip (lanes.getD (lanes.length - 1) []) with
    | error e => simp_all [writeVaSeFastQ, Except.map]
    | ok out => simp_all [writeVaSeFastQ, Except.map]

/-- Witness for C6 at concrete inputs: every forward-emitted example
donor read is a first mate, and the first of two lanes receives no
donor appendix. -/
theorem c6_witness :
    (∀ r ∈ emittedDonorReads exDonorReads "F", r.pairnum = "1") ∧
    (buildFastQ [["@readB", "TTTT", "+", "JJJJ"], []] [] exDonorReads "F")[0]? =
      some (vaseFilterLines [] ["@readB", "TTTT", "+", "JJJJ"]) := by
  have h := c6_donor_append exDonorReads [["@readB", "TTTT", "+", "JJJJ"], []] [] "F"
  exact ⟨h.1, h.2.2.2.1 0 (by decide)⟩

theorem one_le_foldMax_map_len {l : List String} (hne : l ≠ [])
    (h1 : ∀ a ∈ l, 1 ≤ a.length) : 1 ≤ foldMax (l.map String.length) := by
  obtain ⟨a, ha⟩ := List.exists_mem_of_ne_nil l hne
  exact Nat.le_trans (h1 a ha) (le_foldMax (List.mem_map_of_mem String.length ha))

theorem one_lt_foldMax_map_len {l : List String} :
    1 < foldMax (l.map String.length) ↔ ∃ a ∈ l, 1 < a.length := by
  constructor
  · intro h
    rcases foldMax_eq_zero_or_mem (l.map String.length) with h0 | hm
    · omega
    · obtain ⟨a, ha, hlen⟩ := List.mem_map.mp hm
      exact ⟨a, ha, by omega⟩
  · intro ⟨a, ha, hlen⟩
    exact Nat.lt_of_lt_of_le hlen (le_foldMax (List.mem_map_of_mem String.length ha))

theorem foldMax_map_len_eq_one {l : List String} (hne : l ≠ [])
    (h1 : ∀ a ∈ l, 1 ≤ a.length) :
    foldMax (l.map String.length) = 1 ↔ ∀ a ∈ l, a.length = 1 := by
  constructor
  · intro h a ha
    have hle : a.length ≤ 1 := h ▸ le_foldMax (List.mem_map_of_mem String.length ha)
    have := h1 a ha
    omega
  · intro h
    have hle : foldMax (l.map String.length) ≤ 1 := by
      refine foldMax_le ?_
      intro x hx
      obtain ⟨a, ha, hlen⟩ := List.mem_map.mp hx
      have := h a ha
      omega
    have hge := one_le_foldMax_map_len hne h1
    omega

theorem determineVariantType_of_ne_nil (ref : String) (alts : List String) (h : alts ≠ []) :
    determineVariantType ref alts =
      (if foldMax ((pySplit ',' ref).map String.length) == 1
          && foldMax (alts.map String.length) == 1 then Except.ok "snp"
       else if decide (foldMax ((pySplit ',' ref).map String.length) > 1)
          || decide (foldMax (alts.map String.length) > 1) then Except.ok "indel"
       else Except.ok "?") := by
  cases alts with
  | nil => exact absurd rfl h
  | cons a as => rfl


/-- Claim C7.  Under well-formed alleles (a non-empty alternative list
and no zero-length allele strings) the classification is total: a
variant is classified snp exactly when every reference and alternative
allele has length 1 (equivalently, both longest alleles have length 1)
and indel exactly when some allele is longer than 1; the resulting
search window is position minus one to position plus one for a snp,
and position to position plus the maximum allele length over all
reference and alternative alleles for an indel (the half-open window
convention is that of the pysam fetch the window is passed to). -/
theorem c7_classification_and_window (v : VcfVar)
    (halts : v.valts ≠ [])
    (haltlen : ∀ a ∈ v.valts, 1 ≤ a.length)
    (hreflen : ∀ p ∈ pySplit ',' v.vref, 1 ≤ p.length) :
    (determineVariantType v.vref v.valts = Except.ok "snp" ∨
      determineVariantType v.vref v.valts = Except.ok "indel") ∧
    (determineVariantType v.vref v.valts = Except.ok "snp" ↔
      (∀ p ∈ pySplit ',' v.vref, p.length = 1) ∧ ∀ a ∈ v.valts, a.length = 1) ∧
    (determineVariantType v.vref v.valts = Except.ok "indel" ↔
      (∃ p ∈ pySplit ',' v.vref, 1 < p.length) ∨ ∃ a ∈ v.valts, 1 < a.length) ∧
    determineReadSearchWindow "snp" v = (v.vpos - 1, v.vpos + 1) ∧
    determineReadSearchWindow "indel" v =
      (v.vpos, v.vpos + (maxAlleleLength v : Nat)) := by
  have hrefne := pySplit_ne_nil ',' v.vref
  have hmr1 := one_le_foldMax_map_len hrefne hreflen
  have hma1 := one_le_foldMax_map_len halts haltlen
  have hwin_indel : determineReadSearchWindow "indel" v =
      (v.vpos, v.vpos + (maxAlleleLength v : Nat)) := by
    have hmax : maxAlleleLength v =
        Nat.max (foldMax ((pySplit ',' v.vref).map String.length))
          (foldMax (v.valts.map String.length)) := foldMax_append _ _
    rw [hmax]
    rfl
  rw [determineVariantType_of_ne_nil v.vref v.valts halts]
  by_cases hsnp : foldMax ((pySplit ',' v.vref).map String.length) = 1 ∧
      foldMax (v.valts.map String.length) = 1
  · have hcond : (foldMax ((pySplit ',' v.vref).map String.length) == 1
        && foldMax (v.valts.map String.length) == 1) = true := by
      simp [hsnp.1, hsnp.2]
    rw [if_pos hcond]
    refine ⟨Or.inl rfl, ?_, ?_, rfl, hwin_indel⟩
    · refine iff_of_true rfl ?_
      exact ⟨(foldMax_map_len_eq_one hrefne hreflen).mp hsnp.1,
        (foldMax_map_len_eq_one halts haltlen).mp hsnp.2⟩
    · refine iff_of_false (by simp) ?_
      have e1 := hsnp.1
      have e2 := hsnp.2
      rintro (⟨p, hp, hlen⟩ | ⟨a, ha, hlen⟩)
      · have := one_lt_foldMax_map_len.mpr ⟨p, hp, hlen⟩
        omega
      · have := one_lt_foldMax_map_len.mpr ⟨a, ha, hlen⟩
        omega
  · have hcond : ¬ ((foldMax ((pySplit ',' v.vref).map String.length) == 1
        && foldMax (v.valts.map String.length) == 1) = true) := by
      simp only [Bool.and_eq_true, beq_iff_eq]
      exact fun h => hsnp h
    have hlt : 1 < foldMax ((pySplit ',' v.vref).map String.length) ∨
        1 < foldMax (v.valts.map String.length) := by
      by_cases h1 : foldMax ((pySplit ',' v.vref).map String.length) = 1
      · right
        have h2 : ¬ (foldMax (v.valts.map String.length) = 1) := fun h2 => hsnp ⟨h1, h2⟩
        omega
      · left
        omega
    have hcond2 : (decide (foldMax ((pySplit ',' v.vref).map String.length) > 1)
        || decide (foldMax (v.valts.map String.length) > 1)) = true := by
      rcases hlt with h | h <;> simp [h]
    rw [if_neg hcond, if_pos hcond2]
    refine ⟨Or.inr rfl, ?_, ?_, rfl, hwin_indel⟩
    · refine iff_of_false (by simp) ?_
      rintro ⟨hr, ha⟩
      exact hsnp ⟨(foldMax_map_len_eq_one hrefne hreflen).mpr hr,
        (foldMax_map_len_eq_one halts haltlen).mpr ha⟩
    · refine iff_of_true rfl ?_
      rcases hlt with h | h
      · exact Or.inl (one_lt_foldMax_map_len.mp h)
      · exact Or.inr (one_lt_foldMax_map_len.mp h)

/-- Witness for C7 at the example variant. -/
theorem c7_witness :
    (determineVariantType exVariant.vref exVariant.valts = Except.ok "snp" ∨
      determineVariantType exVariant.vref exVariant.valts = Except.ok "indel") ∧
    determineReadSearchWindow "snp" exVariant = (99, 101) := by
  have h := c7_classification_and_window exVariant (by decide) (by decide) (by decide)
  exact ⟨h.1, h.2.2.2.1⟩

theorem dictInsert_mem (k : String) (vc : VariantContextRec) (d : Registry) :
    ∀ p ∈ dictInsert k vc d, p = (k, vc) ∨ p ∈ d := by
  intro p hp
  unfold dictInsert at hp
  split at hp
  · obtain ⟨q, hq, hfq⟩ := List.mem_map.mp hp
    by_cases hk : (q.1 == k) = true
    · rw [if_pos hk] at hfq
      exact Or.inl hfq.symm
    · rw [if_neg hk] at hfq
      exact Or.inr (hfq ▸ hq)
  · rcases List.mem_append.mp hp with h | h
    · exact Or.inr h
    · exact Or.inl (List.mem_singleton.mp h)

theorem dictInsert_keys_nodup (k : String) (vc : VariantContextRec) (d : Registry)
    (hd : (d.map Prod.fst).Nodup) : ((dictInsert k vc d).map Prod.fst).Nodup := by
  unfold dictInsert
  split
  case isTrue h =>
    have heq : (d.map (fun p => if p.1 == k then (k, vc) else p)).map Prod.fst
        = d.map Prod.fst := by
      rw [List.map_map]
      refine List.map_congr_left ?_
      intro p _
      by_cases hk : (p.1 == k) = true
      · simp only [Function.comp_apply, if_pos hk]
        exact (eq_of_beq hk).symm
      · simp only [Function.comp_apply, if_neg hk]
    rw [heq]
    exact hd
  case isFalse h =>
    rw [List.map_append]
    have hk : k ∉ d.map Prod.fst := by
      intro hmem
      obtain ⟨p, hp, hfst⟩ := List.mem_map.mp hmem
      exact h (List.any_eq_true.mpr ⟨p, hp, by simp [hfst]⟩)
    simp only [List.map_cons, List.map_nil]
    rw [List.nodup_append]
    refine ⟨hd, List.nodup_singleton k, ?_⟩
    intro a ha hmem
    rw [List.mem_singleton] at hmem
    subst hmem
    exact hk ha

theorem processVariant_ok (sampleId : String) (acceptorBam donorBam : List SamRec)
    (reg : Registry) (v : VcfVar) (R : Registry)
    (h : processVariant sampleId acceptorBam donorBam reg v = Except.ok R) :
    R = reg ∨ ∃ ctx : VariantContextRec, ctx.ctxOrigin = v.vpos ∧
      R = dictInsert (getVcfVariantId v) ctx reg := by
  simp only [processVariant] at h
  split at h
  next => cases h
  next =>
    split at h
    next =>
      injection h with h1
      exact Or.inl h1.symm
    next =>
      split at h
      next => cases h
      next => cases h
      next =>
        split at h
        next =>
          injection h with h1
          exact Or.inr ⟨_, rfl, h1.symm⟩
        next =>
          injection h with h1
          exact Or.inl h1.symm

theorem buildRegistry_inv (sampleId : String) (acceptorBam donorBam : List SamRec) :
    ∀ (vs : List VcfVar) (reg R : Registry),
    buildRegistry sampleId acceptorBam donorBam vs reg = Except.ok R →
    (reg.map Prod.fst).Nodup →
    (R.map Prod.fst).Nodup ∧
      ∀ p ∈ R, p ∈ reg ∨ ∃ v ∈ vs, p.1 = getVcfVariantId v ∧ p.2.ctxOrigin = v.vpos := by
  intro vs
  induction vs with
  | nil =>
    intro reg R h hnd
    have hR : reg = R := by
      simpa [buildRegistry, List.foldlM, pure, Except.pure] using h
    subst hR
    exact ⟨hnd, fun p hp => Or.inl hp⟩
  | cons v vs ih =>
    intro reg R h hnd
    simp only [buildRegistry, List.foldlM] at h
    cases hpv : processVariant sampleId acceptorBam donorBam reg v with
    | error e =>
      rw [hpv] at h
      cases h
    | ok r1 =>
      rw [hpv] at h
      have hshape := processVariant_ok sampleId acceptorBam donorBam reg v r1 hpv
      have hnd1 : (r1.map Prod.fst).Nodup := by
        rcases hshape with he | ⟨ctx, _, he⟩
        · rw [he]; exact hnd
        · rw [he]; exact dictInsert_keys_nodup _ _ _ hnd
      obtain ⟨hndR, hmem⟩ := ih r1 R (by simpa [buildRegistry] using h) hnd1
      refine ⟨hndR, ?_⟩
      intro p hp
      rcases hmem p hp with hin | ⟨v', hv', hh⟩
      · rcases hshape with he | ⟨ctx, hor, he⟩
        · exact Or.inl (he ▸ hin)
        · rw [he] at hin
          rcases dictInsert_mem _ _ _ p hin with hpk | hpd
          · right
            refine ⟨v, List.mem_cons_self v vs, ?_, ?_⟩
            · rw [hpk]
            · rw [hpk]
              exact hor
          · exact Or.inl hpd
      · exact Or.inr ⟨v', List.mem_cons_of_mem v hv', hh⟩

/-- Claim C8.  Any registry an orchestration run builds from the empty
registry has pairwise-distinct context ids (Python dict keys are
unique, and dictInsert preserves that), and every stored context is
keyed by the chrom-underscore-origin string of the variant that
created it, with the stored origin equal to that variant position:
getVcfVariantId builds that form unconditionally, in particular
whenever the variant lacks a natural identifier. -/
theorem c8_context_id_form_and_unique (sampleId : String)
    (acceptorBam donorBam : List SamRec) (vs : List VcfVar) (R : Registry)
    (h : buildRegistry sampleId acceptorBam donorBam vs [] = Except.ok R) :
    (R.map Prod.fst).Nodup ∧
    ∀ p ∈ R, ∃ v ∈ vs, p.1 = v.vchrom ++ "_" ++ toString v.vpos ∧
      p.2.ctxOrigin = v.vpos := by
  obtain ⟨hnd, hmem⟩ := buildRegistry_inv sampleId acceptorBam donorBam vs [] R h (by simp)
  refine ⟨hnd, ?_⟩
  intro p hp
  rcases hmem p hp with hin | ⟨v, hv, h1, h2⟩
  · cases hin
  · exact ⟨v, hv, h1, h2⟩

/-- Witness for C8: the example build succeeds, installs the context
chr1_100, and the conclusions hold for the resulting registry. -/
theorem c8_witness :
    buildRegistry "sampleA" exAcceptorBam exDonorBam [exVariant] [] =
      Except.ok exBuiltRegistry ∧
    (exBuiltRegistry.map Prod.fst).Nodup ∧
    ∀ p ∈ exBuiltRegistry, ∃ v ∈ [exVariant],
      p.1 = v.vchrom ++ "_" ++ toString v.vpos ∧ p.2.ctxOrigin = v.vpos := by
  have heq : buildRegistry "sampleA" exAcceptorBam exDonorBam [exVariant] [] =
      Except.ok exBuiltRegistry := rfl
  have h := c8_context_id_form_and_unique "sampleA" exAcceptorBam exDonorBam [exVariant]
    exBuiltRegistry heq
  exact ⟨heq, h.1, h.2⟩
